import Mathlib

/-!
Verification of the asynchronous cover-generation job pipeline of the
`ai-cover-generator` service, shallowly embedded from the Python source.

The embedding covers:
* the layout-zone table of `app/services/layout_aware_generator.py`
  (`_define_layout_zones`);
* the job records and endpoint handlers of `app/routers/generate.py`
  (`process_cover_generation`, `process_manual_generation`,
  `approve_generation`, `cancel_job`, `get_preview`);
* the storage promotion step of `app/services/storage_service.py`
  (`finalize_image`);
* the watermark scaling/placement of `app/services/ai_service.py`
  (`add_watermark`);
* the line-breaking helpers `smart_line_breaking`
  (`refined_logo_generator.py`) and `wrap_text` (`simple_generator.py`).

External collaborators (the image model, Supabase storage) are passed in
as explicit oracles: a call that may raise is modelled as `Except String α`.
Machine floats only appear in the watermark height rescale; it is modelled
with exact natural-number flooring, and no theorem below depends on the
rescaled height value.
-/

/-- Job status strings used in `generate.py`. -/
inductive Status where
  | queued
  | processing
  | preview_ready
  | completed
  | failed
  | cancelled
deriving DecidableEq, Repr

/-- One entry of the in-memory `generation_jobs` dict, restricted to the
fields the handlers read and write: `status`, `image_url`, `preview_url`
and `message`.  (The code keeps the request snapshot and `created_at`
alongside; no handler branches on them.) -/
structure Job where
  status : Status
  image_url : Option String
  preview_url : Option String
  message : Option String
deriving DecidableEq, Repr

/-- The record created by the submission endpoints: `status = "queued"`,
no result fields, no message. -/
def initJob : Job :=
  { status := Status.queued, image_url := none, preview_url := none, message := none }

/-- The failure message written by both background tasks' `except` blocks:
`f"Generation failed: {str(e)}"`. -/
def failMsg (e : String) : String := "Generation failed: " ++ e

/-! ## Layout zones (`layout_aware_generator._define_layout_zones`) -/

/-- A layout zone: normalized bounds `(x1, y1, x2, y2)` and the `avoid`
flag (the spec's `exclusive`).  Every coordinate in
`_define_layout_zones` is an exact multiple of 0.05, so normalized
fractions are stored exactly as integer hundredths: `0.2 ↦ 20`. -/
structure LayoutZone where
  x1 : Nat
  y1 : Nat
  x2 : Nat
  y2 : Nat
  avoid : Bool
deriving DecidableEq, Repr

/-- Zone `"watermark_zone"`: area `(0.2, 0.75, 0.8, 0.95)`, `avoid = True`. -/
def watermark_zone : LayoutZone := ⟨20, 75, 80, 95, true⟩

/-- Zone `"title_zone"`: area `(0.1, 0.1, 0.9, 0.4)`, `avoid = True`. -/
def title_zone : LayoutZone := ⟨10, 10, 90, 40, true⟩

/-- Zone `"subtitle_zone"`: area `(0.15, 0.35, 0.85, 0.5)`, `avoid = True`. -/
def subtitle_zone : LayoutZone := ⟨15, 35, 85, 50, true⟩

/-- Zone `"logo_zone"`: area `(0.05, 0.05, 0.25, 0.25)`, `avoid = False`. -/
def logo_zone : LayoutZone := ⟨5, 5, 25, 25, false⟩

/-- Zone `"safe_content_zone"`: area `(0.0, 0.5, 1.0, 0.75)`, `avoid = False`. -/
def safe_content_zone : LayoutZone := ⟨0, 50, 100, 75, false⟩

/-- The zone table returned by `_define_layout_zones`. -/
def _define_layout_zones : List (String × LayoutZone) :=
  [("watermark_zone", watermark_zone),
   ("title_zone", title_zone),
   ("subtitle_zone", subtitle_zone),
   ("logo_zone", logo_zone),
   ("safe_content_zone", safe_content_zone)]

/-- Two zones overlap when their bounds rectangles share a region of
positive area. -/
def zonesOverlap (a b : LayoutZone) : Bool :=
  (max a.x1 b.x1 < min a.x2 b.x2) && (max a.y1 b.y1 < min a.y2 b.y2)

/-! ## Endpoint handlers (`app/routers/generate.py`)

`HTTPException(status_code, detail)` is modelled as `Except (Nat × String)`;
a handler that raises returns `Except.error (code, detail)` and leaves the
job record untouched. -/

/-- Handler for `DELETE /job/{job_id}` (`cancel_job`), acting on one job record:
terminal `completed`/`failed` jobs are rejected with HTTP 400, every
other job is overwritten with `status = "cancelled"`. -/
def cancel_job (j : Job) : Except (Nat × String) (Job × String) :=
  if j.status = Status.completed ∨ j.status = Status.failed then
    Except.error (400, "Cannot cancel completed or failed job")
  else
    Except.ok ({ j with status := Status.cancelled }, "Job cancelled successfully")

/-- Handler for `POST /approve/{job_id}` (`approve_generation`).  `finalize` is the
outcome of `storage_service.finalize_image(job_id)`: `Except.error e`
models the call raising `e`.  On success the handler returns the final
URL and the updated record; every raise leaves the record untouched. -/
def approve_generation (finalize : Except String String) (j : Job) :
    Except (Nat × String) (Job × String) :=
  if j.status ≠ Status.preview_ready then
    Except.error (400, "No preview ready for approval")
  else
    match finalize with
    | Except.error e => Except.error (500, "Failed to approve image: " ++ e)
    | Except.ok final_url =>
        Except.ok
          ({ j with
              status := Status.completed
              image_url := some final_url
              message := some "Image approved and saved" }, final_url)

/-- Python truthiness of `job.get("preview_url")`: missing or empty. -/
def falsyUrl : Option String → Bool
  | none => true
  | some s => s = ""

/-- Handler for `GET /preview/{job_id}` (`get_preview`): requires
`status == "completed"` and a truthy `preview_url`, else HTTP 404
`"Preview not ready"`. -/
def get_preview (j : Job) : Except (Nat × String) String :=
  if j.status ≠ Status.completed ∨ falsyUrl j.preview_url then
    Except.error (404, "Preview not ready")
  else
    Except.ok (j.preview_url.getD "")

/-! ## Background pipelines (`process_cover_generation`,
`process_manual_generation`)

Each stage call on an external collaborator is an oracle returning
`Except String _`; `Except.error e` models the stage raising `e`.  `Img`
is the opaque raster-image type. -/

/-- The record update performed by both `except` blocks:
`status = "failed"`, `message = f"Generation failed: {e}"`. -/
def failUpdate (j : Job) (e : String) : Job :=
  { j with status := Status.failed, message := some (failMsg e) }

/-- Background task `process_cover_generation` (automated workflow): set
`status = "processing"`, then generate background, overlay text, upload;
on success commit `status = "completed"` with the image URL, on any raise
run the `except` block. -/
def process_cover_generation {Img : Type}
    (generate_background : Except String Img)
    (add_text_overlay : Img → Except String Img)
    (upload_image : Img → Except String String)
    (j : Job) : Job :=
  let j1 := { j with status := Status.processing }
  match generate_background with
  | Except.error e => failUpdate j1 e
  | Except.ok background_image =>
    match add_text_overlay background_image with
    | Except.error e => failUpdate j1 e
    | Except.ok final_image =>
      match upload_image final_image with
      | Except.error e => failUpdate j1 e
      | Except.ok image_url =>
          { j1 with
              status := Status.completed
              image_url := some image_url
              message := some "Cover generated successfully" }

/-- Background task `process_manual_generation` (manual workflow): set
`status = "processing"`, then generate background, overlay text,
optionally overlay the watermark (only when `request.watermark_data` is
present), save the preview; on success commit `status = "preview_ready"`
with the preview URL. -/
def process_manual_generation {Img : Type}
    (generate_background : Except String Img)
    (add_text_overlay : Img → Except String Img)
    (add_watermark : Option (Img → Except String Img))
    (save_preview : Img → Except String String)
    (j : Job) : Job :=
  let j1 := { j with status := Status.processing }
  match generate_background with
  | Except.error e => failUpdate j1 e
  | Except.ok background_image =>
    match add_text_overlay background_image with
    | Except.error e => failUpdate j1 e
    | Except.ok image_with_text =>
      let watermarked : Except String Img :=
        match add_watermark with
        | none => Except.ok image_with_text
        | some wm => wm image_with_text
      match watermarked with
      | Except.error e => failUpdate j1 e
      | Except.ok final_image =>
        match save_preview final_image with
        | Except.error e => failUpdate j1 e
        | Except.ok preview_url =>
            { j1 with
                status := Status.preview_ready
                preview_url := some preview_url
                message := some "Preview ready for approval" }

/-! ## Storage promotion (`storage_service.finalize_image`) -/

/-- Path `f"previews/preview_{job_id}.png"` — the preview artifact's path. -/
def preview_storage_path (job_id : String) : String :=
  "previews/preview_" ++ job_id ++ ".png"

/-- Path `f"covers/final_{job_id}_{ts}.png"` — the final artifact's path. -/
def final_storage_path (job_id : String) (ts : Nat) : String :=
  "covers/final_" ++ job_id ++ "_" ++ toString ts ++ ".png"

/-- Storage call `finalize_image`: download the preview, upload it under the final
path (checking the returned status code), take the public URL, then
remove the preview.  The `remove` call's returned value is ignored, but
an exception it raises propagates out of the surrounding `try` and fails
the whole call.  `B` is the opaque type of downloaded bytes. -/
def finalize_image {B : Type}
    (download : String → Except String B)
    (upload : String → B → Except String Nat)
    (get_public_url : String → String)
    (remove : String → Except String Nat)
    (job_id : String) (ts : Nat) : Except String String :=
  match download (preview_storage_path job_id) with
  | Except.error e => Except.error e
  | Except.ok preview_data =>
    match upload (final_storage_path job_id ts) preview_data with
    | Except.error e => Except.error e
    | Except.ok code =>
      if code ≠ 200 then
        Except.error ("Final upload failed with status " ++ toString code)
      else
        let url_result := get_public_url (final_storage_path job_id ts)
        match remove (preview_storage_path job_id) with
        | Except.error e => Except.error e
        | Except.ok _ => Except.ok url_result

/-! ## Watermark scaling and placement (`ai_service.add_watermark`) -/

/-- Size cap computed by `add_watermark`: `img_width // 10`. -/
def max_watermark_width (img_width : Nat) : Nat := img_width / 10

/-- The resize step of `add_watermark`: only when the watermark's width
exceeds `img_width // 10` is it rescaled, to exactly that width with the
height scaled by the same ratio (the Python float product
`int(height * ratio)` is modelled as the exact floor
`height * maxw / width`; no theorem below depends on this value). -/
def watermark_resize (img_width wm_width wm_height : Nat) : Nat × Nat :=
  if wm_width > max_watermark_width img_width then
    (max_watermark_width img_width,
     wm_height * max_watermark_width img_width / wm_width)
  else (wm_width, wm_height)

/-- The `positions` table of `add_watermark` (margin 20 px), with the
dictionary lookup defaulting to `"bottom-right"` for unknown keys.
Coordinates are `Int` because the Python subtraction may go negative. -/
def watermark_position (position : String) (img_width img_height wm_width wm_height : Int) :
    Int × Int :=
  if position = "top-left" then (20, 20)
  else if position = "top-right" then (img_width - wm_width - 20, 20)
  else if position = "bottom-left" then (20, img_height - wm_height - 20)
  else if position = "center" then
    ((img_width - wm_width) / 2, (img_height - wm_height) / 2)
  else (img_width - wm_width - 20, img_height - wm_height - 20)

/-! ## Line breaking (`refined_logo_generator.smart_line_breaking`,
`simple_generator.wrap_text`)

Text width measurement (`draw.textbbox` / `font.getbbox`) is an oracle
`w : String → Int` (pixel widths).  Python's `str.split()` splits on
whitespace runs and drops empty pieces; it is embedded character by
character as `pySplit`.  The float ratio comparisons `ratio > best_ratio`
and `ratio >= 1.2` are carried out exactly on integer widths by
cross-multiplication. -/

def splitWsAux (cur : List Char) : List Char → List (List Char)
  | [] => if cur = [] then [] else [cur.reverse]
  | c :: rest =>
      if c.isWhitespace then
        if cur = [] then splitWsAux [] rest
        else cur.reverse :: splitWsAux [] rest
      else splitWsAux (c :: cur) rest

/-- Python `text.split()`. -/
def pySplit (s : String) : List String :=
  (splitWsAux [] s.data).map List.asString

/-- Python `" ".join(words)`. -/
def joinWords (ws : List String) : String := String.intercalate " " ws

/-- One candidate split `i` of `smart_line_breaking`'s `for` loop: accept
it when `width2 > 0`, `ratio > best_ratio` and `ratio >= 1.2`.  The
accumulator carries the best ratio as the exact fraction
`(width1, width2)` and the best split index. -/
def slbStep (w : String → Int) (words : List String)
    (acc : (Int × Int) × Option Nat) (i : Nat) : (Int × Int) × Option Nat :=
  let width1 := w (joinWords (words.take i))
  let width2 := w (joinWords (words.drop i))
  if 0 < width2 then
    if acc.1.1 * width2 < width1 * acc.1.2 ∧ 10 * width1 ≥ 12 * width2 then
      ((width1, width2), some i)
    else acc
  else acc

/-- The split index `smart_line_breaking` settles on: the `for i in
range(1, len(words))` loop is the fold over `List.range' 1 (n - 1)`,
starting from `best_ratio = 0` (the fraction `0/1`) and
`best_split = None`; when no candidate qualifies, the default is
`len(words) // 2 + 1`. -/
def slbBestSplit (w : String → Int) (words : List String) : Nat :=
  (((List.range' 1 (words.length - 1)).foldl (slbStep w words) ((0, 1), none)).2).getD
    (words.length / 2 + 1)

/-- The body of `smart_line_breaking` once `words = title.split()` is
bound. -/
def smart_line_breaking_words (w : String → Int) (title : String)
    (words : List String) : List String :=
  if words.length ≤ 2 then [title]
  else
    [joinWords (words.take (slbBestSplit w words)),
     joinWords (words.drop (slbBestSplit w words))]

/-- Function `smart_line_breaking(title, draw, font)` from
`refined_logo_generator.py`: titles of at most two words stay on a single
line; otherwise the title is split into two lines at the word boundary
with the best first/second width ratio of at least 1.2, defaulting to the
boundary after word `len(words) // 2 + 1`. -/
def smart_line_breaking (w : String → Int) (title : String) : List String :=
  smart_line_breaking_words w title (pySplit title)

/-- The inner loop body of `wrap_text`: try appending the word to the
current line; on overflow flush the current line (or, when it is empty,
emit the overlong word itself on its own line). -/
def wrapStep (w : String → Int) (max_width : Int)
    (acc : List String × List String) (word : String) : List String × List String :=
  let lines := acc.1
  let current_line := acc.2
  let test_line := joinWords (current_line ++ [word])
  if w test_line ≤ max_width then (lines, current_line ++ [word])
  else if current_line ≠ [] then (lines ++ [joinWords current_line], [word])
  else (lines ++ [word], [])

/-- Function `wrap_text(text, font, max_width)` from `simple_generator.py`:
greedy word wrap; a trailing nonempty current line is flushed at the end. -/
def wrap_text (w : String → Int) (max_width : Int) (text : String) : List String :=
  let r := (pySplit text).foldl (wrapStep w max_width) ([], [])
  if r.2 ≠ [] then r.1 ++ [joinWords r.2] else r.1

/-- Modelled from the spec: the fallback wrapping rule the spec claims
for single unbreakable tokens — "a naive midpoint character split" (as
in `large_text_generator.py`: `mid = len(title) // 2;
[title[:mid], title[mid:]]`).  Used only to compare the claimed fallback
against `smart_line_breaking`. -/
def spec_midpoint_char_split (t : String) : List String :=
  [List.asString (t.data.take (t.data.length / 2)),
   List.asString (t.data.drop (t.data.length / 2))]

/-! ## Registry histories

One job's record evolves through the handler calls above and through the
two `generation_jobs[job_id].update(...)` sites of its single background
task.  `Ev` is one observable mutation event; `step` is the record
update it performs (a rejected handler call leaves the record unchanged,
mirroring `raise HTTPException` before any mutation). -/

inductive Ev where
  /-- The background task's first line: `status = "processing"`. -/
  | pipeStart
  /-- Event: `process_cover_generation` commits success with `image_url`. -/
  | pipeAutoOk (url : String)
  /-- Event: `process_manual_generation` commits success with `preview_url`. -/
  | pipeManualOk (url : String)
  /-- Either background task's `except` block records failure `e`. -/
  | pipeFail (e : String)
  /-- A `DELETE /job/{job_id}` call. -/
  | cancel
  /-- A `POST /approve/{job_id}` call whose `finalize_image` outcome is `f`. -/
  | approve (f : Except String String)

/-- Effect of one event on the job record. -/
def step (j : Job) : Ev → Job
  | Ev.pipeStart => { j with status := Status.processing }
  | Ev.pipeAutoOk url =>
      { j with
          status := Status.completed
          image_url := some url
          message := some "Cover generated successfully" }
  | Ev.pipeManualOk url =>
      { j with
          status := Status.preview_ready
          preview_url := some url
          message := some "Preview ready for approval" }
  | Ev.pipeFail e => failUpdate j e
  | Ev.cancel =>
      match cancel_job j with
      | Except.ok (j', _) => j'
      | Except.error _ => j
  | Ev.approve f =>
      match approve_generation f j with
      | Except.ok (j', _) => j'
      | Except.error _ => j

/-- Progress of the job's single background task: not yet started,
started (only `pipeStart` done), or finished (one commit done). -/
inductive PState where
  | notStarted
  | started
  | finished
deriving DecidableEq, Repr

/-- Whether event `e` can occur while the background task is in state
`s`: the task runs once, `pipeStart` first, then exactly one commit;
handler calls can interleave anywhere. -/
def evOK (s : PState) : Ev → Bool
  | Ev.pipeStart => s = PState.notStarted
  | Ev.pipeAutoOk _ => s = PState.started
  | Ev.pipeManualOk _ => s = PState.started
  | Ev.pipeFail _ => s = PState.started
  | Ev.cancel => true
  | Ev.approve _ => true

/-- Background-task progress after event `e`. -/
def evNext (s : PState) : Ev → PState
  | Ev.pipeStart => PState.started
  | Ev.pipeAutoOk _ => PState.finished
  | Ev.pipeManualOk _ => PState.finished
  | Ev.pipeFail _ => PState.finished
  | Ev.cancel => s
  | Ev.approve _ => s

/-- Whether an event sequence is possible for one job from task state `s`. -/
def admFrom (s : PState) : List Ev → Bool
  | [] => true
  | e :: t => evOK s e && admFrom (evNext s e) t

/-- Event sequences possible for one job after submission. -/
def admissible (t : List Ev) : Prop := admFrom PState.notStarted t = true

/-- The job record after running events `t` from record `j`. -/
def runFrom (j : Job) (t : List Ev) : Job := t.foldl step j

/-- The job record a trace `t` of events produces, starting from the
freshly submitted record. -/
def run (t : List Ev) : Job := runFrom initJob t

/-! ## Helper lemmas -/

lemma joinWords_singleton (t : String) : joinWords [t] = t := rfl

lemma failMsg_ne_empty (e : String) : failMsg e ≠ "" := by
  intro h
  have h2 := congrArg String.data h
  rw [failMsg, String.data_append] at h2
  rcases List.append_eq_nil.mp h2 with ⟨h3, -⟩
  exact absurd h3 (by decide)

lemma not_failMsg (s : String) (h : s.data.take 19 ≠ "Generation failed: ".data)
    (e : String) : s ≠ failMsg e := by
  intro hEq
  apply h
  have h2 : s.data = "Generation failed: ".data ++ e.data := by
    rw [hEq, failMsg, String.data_append]
  rw [h2]
  exact List.take_left' (by decide)

lemma runFrom_cons (j : Job) (e : Ev) (t : List Ev) :
    runFrom j (e :: t) = runFrom (step j e) t := rfl

/-! ## C1 — exclusive-zone non-overlap -/

/-- C1 counterexample: `title_zone` and `subtitle_zone` are both in the
configured zone table with `avoid = true`, yet their bounds rectangles
overlap (in the band `x ∈ [0.15, 0.85]`, `y ∈ [0.35, 0.4]`), so the
claimed pairwise non-overlap of exclusive zones fails on the
configuration itself. -/
theorem C1_counterexample :
    ("title_zone", title_zone) ∈ _define_layout_zones
    ∧ ("subtitle_zone", subtitle_zone) ∈ _define_layout_zones
    ∧ title_zone.avoid = true
    ∧ subtitle_zone.avoid = true
    ∧ zonesOverlap title_zone subtitle_zone = true := by
  refine ⟨?_, ?_, ?_, ?_, ?_⟩ <;> decide

/-- C1 amended: of the three zones configured with `avoid = true`, the
watermark zone overlaps neither the title zone nor the subtitle zone,
but the title and subtitle zones do overlap each other; nothing in the
code geometrically validates the configuration. -/
theorem C1_amended :
    zonesOverlap watermark_zone title_zone = false
    ∧ zonesOverlap watermark_zone subtitle_zone = false
    ∧ zonesOverlap title_zone subtitle_zone = true := by
  refine ⟨?_, ?_, ?_⟩ <;> decide

/-! ## C2 — cancel on terminal states -/

/-- C2 counterexample: a job that is already `cancelled` (reachable by
one cancel call on a fresh job) is *not* rejected by a second cancel
request — `cancel_job` answers success, merely leaving the status
`cancelled` — so the claim that every terminal status (including
`cancelled`) rejects cancellation with a conflict error is false. -/
theorem C2_counterexample :
    (run [Ev.cancel]).status = Status.cancelled
    ∧ cancel_job (run [Ev.cancel])
        = Except.ok (run [Ev.cancel], "Job cancelled successfully") :=
  ⟨by decide, rfl⟩

/-- C2 amended: a cancel request is rejected with the HTTP 400 conflict
error exactly for the statuses the code lists — `completed` and `failed`
— leaving the record untouched; a cancel on an already-`cancelled` job
is accepted as a no-op: it answers success and the record is unchanged. -/
theorem C2_amended (j : Job) :
    (j.status = Status.completed ∨ j.status = Status.failed →
      cancel_job j = Except.error (400, "Cannot cancel completed or failed job"))
    ∧ (j.status = Status.cancelled →
      cancel_job j = Except.ok (j, "Job cancelled successfully")) := by
  obtain ⟨st, iu, pu, m⟩ := j
  constructor
  · intro h
    rw [cancel_job, if_pos h]
  · intro h
    simp only at h
    subst h
    rw [cancel_job, if_neg (by simp)]

/-- C2 witness: instantiation of `C2_amended` at a completed job and at
a cancelled job. -/
theorem C2_witness :
    ((run [Ev.pipeStart, Ev.pipeAutoOk "u"]).status = Status.completed
      ∨ (run [Ev.pipeStart, Ev.pipeAutoOk "u"]).status = Status.failed)
    ∧ cancel_job (run [Ev.pipeStart, Ev.pipeAutoOk "u"])
        = Except.error (400, "Cannot cancel completed or failed job")
    ∧ (run [Ev.cancel]).status = Status.cancelled
    ∧ cancel_job (run [Ev.cancel]) = Except.ok (run [Ev.cancel], "Job cancelled successfully") :=
  ⟨Or.inl (by decide),
   (C2_amended _).1 (Or.inl (by decide)),
   by decide,
   (C2_amended _).2 (by decide)⟩

/-! ## C3 — cancellation is never overwritten -/

/-- C3 counterexample: a job cancelled while still `queued` is
overwritten by its background task, which checks nothing before each
commit: after `pipeStart` the cancelled job reads `processing`, and
after the manual pipeline's success commit it reads `preview_ready` —
an admissible history in which a cancelled job is later observed in
non-cancelled statuses. -/
theorem C3_counterexample :
    admissible [Ev.cancel, Ev.pipeStart, Ev.pipeManualOk "u"]
    ∧ (run [Ev.cancel]).status = Status.cancelled
    ∧ (run [Ev.cancel, Ev.pipeStart]).status = Status.processing
    ∧ (run [Ev.cancel, Ev.pipeStart, Ev.pipeManualOk "u"]).status = Status.preview_ready := by
  refine ⟨?_, ?_, ?_, ?_⟩
  · unfold admissible
    decide
  all_goals decide

/-- C3 amended: once a job is `cancelled`, the synchronous operations
never move it out of that status (a further cancel leaves it cancelled,
an approve is rejected as a conflict), but the pipeline's commit sites
do not detect cancellation: each later stage-commit overwrites the
cancelled status with its own (`processing`, `completed`,
`preview_ready` or `failed`). -/
theorem C3_amended (j : Job) (f : Except String String) (url pv e : String)
    (h : j.status = Status.cancelled) :
    (step j Ev.cancel).status = Status.cancelled
    ∧ (step j (Ev.approve f)).status = Status.cancelled
    ∧ (step j Ev.pipeStart).status = Status.processing
    ∧ (step j (Ev.pipeAutoOk url)).status = Status.completed
    ∧ (step j (Ev.pipeManualOk pv)).status = Status.preview_ready
    ∧ (step j (Ev.pipeFail e)).status = Status.failed := by
  refine ⟨?_, ?_, rfl, rfl, rfl, rfl⟩
  · rw [step, cancel_job, if_neg (by rw [h]; simp)]
  · have ha : approve_generation f j = Except.error (400, "No preview ready for approval") := by
      unfold approve_generation
      rw [if_pos (by rw [h]; simp)]
    rw [step, ha]
    exact h

/-- C3 witness: instantiation of `C3_amended` at a freshly cancelled
job. -/
theorem C3_witness :
    (run [Ev.cancel]).status = Status.cancelled
    ∧ ((step (run [Ev.cancel]) Ev.cancel).status = Status.cancelled
      ∧ (step (run [Ev.cancel]) (Ev.approve (Except.ok "f"))).status = Status.cancelled
      ∧ (step (run [Ev.cancel]) Ev.pipeStart).status = Status.processing
      ∧ (step (run [Ev.cancel]) (Ev.pipeAutoOk "a")).status = Status.completed
      ∧ (step (run [Ev.cancel]) (Ev.pipeManualOk "p")).status = Status.preview_ready
      ∧ (step (run [Ev.cancel]) (Ev.pipeFail "e")).status = Status.failed) :=
  ⟨by decide, C3_amended (run [Ev.cancel]) (Except.ok "f") "a" "p" "e" (by decide)⟩

/-! ## C10 — preview endpoint gating -/

/-- C10: `GET /preview/{job_id}` rejects a `preview_ready` job with the
404 `"Preview not ready"` error, because it demands
`status == "completed"` together with a truthy stored preview URL; any
successful fetch implies the job is already `completed`, so a preview is
retrievable only after approval, never while awaiting it. -/
theorem C10_preview_gate (j : Job) (u : String) :
    (j.status = Status.preview_ready →
      get_preview j = Except.error (404, "Preview not ready"))
    ∧ (get_preview j = Except.ok u → j.status = Status.completed) := by
  constructor
  · intro h
    unfold get_preview
    rw [if_pos (Or.inl (by rw [h]; simp))]
  · intro h
    by_contra hne
    unfold get_preview at h
    rw [if_pos (Or.inl hne)] at h
    exact absurd h (by simp)

/-- C10 witness: `C10_preview_gate` applied to the job parked in
`preview_ready` by the manual pipeline, and to the same job after
approval (for which the fetch succeeds). -/
theorem C10_witness :
    ((run [Ev.pipeStart, Ev.pipeManualOk "p"]).status = Status.preview_ready
      ∧ get_preview (run [Ev.pipeStart, Ev.pipeManualOk "p"])
          = Except.error (404, "Preview not ready"))
    ∧ (get_preview (run [Ev.pipeStart, Ev.pipeManualOk "p", Ev.approve (Except.ok "f")])
          = Except.ok "p"
      ∧ (run [Ev.pipeStart, Ev.pipeManualOk "p", Ev.approve (Except.ok "f")]).status
          = Status.completed) :=
  ⟨⟨by decide, (C10_preview_gate _ "p").1 (by decide)⟩,
   ⟨rfl, (C10_preview_gate _ "p").2 rfl⟩⟩

/-! ## C8 — watermark scaling cap -/

/-- C8 counterexample: on a 1800-px-wide canvas the cap
`img_width // 10` is 180, yet a 100×400 watermark (taller than wide) is
left entirely unresized — its width 100 is already under the cap — so
its longer dimension stays 400 > 180, violating the claimed bound on the
longer dimension. -/
theorem C8_counterexample :
    max_watermark_width 1800 = 180
    ∧ watermark_resize 1800 100 400 = (100, 400)
    ∧ ¬(max (watermark_resize 1800 100 400).1 (watermark_resize 1800 100 400).2
          ≤ max_watermark_width 1800) := by
  refine ⟨?_, ?_, ?_⟩ <;> decide

/-- C8 amended: `add_watermark` caps only the watermark's *width* at
10% of the canvas width (the height is scaled proportionally, or left
unchanged, and may exceed that cap), and places the watermark with a
fixed 20 px margin from the canvas edge for the edge-anchored positions,
defaulting unknown position names to bottom-right. -/
theorem C8_amended :
    (∀ iw ww wh, (watermark_resize iw ww wh).1 ≤ max_watermark_width iw)
    ∧ (∀ iw ih ww wh : Int,
        watermark_position "bottom-right" iw ih ww wh = (iw - ww - 20, ih - wh - 20))
    ∧ (∀ (p : String) (iw ih ww wh : Int),
        p ≠ "top-left" → p ≠ "top-right" → p ≠ "bottom-left" → p ≠ "center" →
        watermark_position p iw ih ww wh = (iw - ww - 20, ih - wh - 20)) := by
  refine ⟨?_, ?_, ?_⟩
  · intro iw ww wh
    unfold watermark_resize
    split
    · exact Nat.le_refl _
    · rename_i hle
      unfold max_watermark_width at hle ⊢
      omega
  · intro iw ih ww wh
    unfold watermark_position
    rw [if_neg (by decide), if_neg (by decide), if_neg (by decide), if_neg (by decide)]
  · intro p iw ih ww wh h1 h2 h3 h4
    unfold watermark_position
    rw [if_neg h1, if_neg h2, if_neg h3, if_neg h4]

/-- C8 witness: `C8_amended` applied at the 1800×900 canvas with a
100×400 watermark and an unknown position name. -/
theorem C8_witness :
    (watermark_resize 1800 100 400).1 ≤ max_watermark_width 1800
    ∧ watermark_position "bottom-right" 1800 900 100 50 = (1680, 830)
    ∧ (("middle" : String) ≠ "top-left"
      ∧ watermark_position "middle" 1800 900 100 50 = (1680, 830)) :=
  ⟨C8_amended.1 1800 100 400,
   C8_amended.2.1 1800 900 100 50,
   by decide,
   (C8_amended.2.2 "middle" 1800 900 100 50 (by decide) (by decide) (by decide) (by decide))⟩

/-! ## C6 — approve idempotence -/

/-- The record update `approve_generation` commits on success. -/
def approvedUpdate (j : Job) (u : String) : Job :=
  { j with
      status := Status.completed
      image_url := some u
      message := some "Image approved and saved" }

/-- C6: approving a `preview_ready` job succeeds, marking it `completed`
with the final URL; a second approve call hits the
`status != "preview_ready"` guard and is rejected with the 400 conflict
error before any mutation, so the record — and with it the first call's
result URL — is unchanged; approve on any non-`preview_ready` status is
likewise rejected. -/
theorem C6_approve_idempotence (j : Job) (u : String) (f' : Except String String)
    (h : j.status = Status.preview_ready) :
    approve_generation (Except.ok u) j = Except.ok (approvedUpdate j u, u)
    ∧ approve_generation f' (approvedUpdate j u)
      = Except.error (400, "No preview ready for approval")
    ∧ step (approvedUpdate j u) (Ev.approve f') = approvedUpdate j u
    ∧ (approvedUpdate j u).image_url = some u
    ∧ (∀ j' : Job, j'.status ≠ Status.preview_ready →
        approve_generation f' j' = Except.error (400, "No preview ready for approval")) := by
  have hsecond : approve_generation f' (approvedUpdate j u)
      = Except.error (400, "No preview ready for approval") := by
    unfold approve_generation approvedUpdate
    rw [if_pos (by simp)]
  refine ⟨?_, hsecond, ?_, rfl, ?_⟩
  · unfold approve_generation approvedUpdate
    rw [if_neg (by rw [h]; simp)]
  · rw [step, hsecond]
  · intro j' h'
    unfold approve_generation
    rw [if_pos h']

/-- C6 witness: `C6_approve_idempotence` applied to the job parked in
`preview_ready` by the manual pipeline. -/
theorem C6_witness :
    (run [Ev.pipeStart, Ev.pipeManualOk "p"]).status = Status.preview_ready
    ∧ (approve_generation (Except.ok "final") (run [Ev.pipeStart, Ev.pipeManualOk "p"])
        = Except.ok (approvedUpdate (run [Ev.pipeStart, Ev.pipeManualOk "p"]) "final", "final")
      ∧ approve_generation (Except.ok "again")
          (approvedUpdate (run [Ev.pipeStart, Ev.pipeManualOk "p"]) "final")
        = Except.error (400, "No preview ready for approval")
      ∧ step (approvedUpdate (run [Ev.pipeStart, Ev.pipeManualOk "p"]) "final")
            (Ev.approve (Except.ok "again"))
        = approvedUpdate (run [Ev.pipeStart, Ev.pipeManualOk "p"]) "final"
      ∧ (approvedUpdate (run [Ev.pipeStart, Ev.pipeManualOk "p"]) "final").image_url
        = some "final"
      ∧ (∀ j' : Job, j'.status ≠ Status.preview_ready →
          approve_generation (Except.ok "again") j'
            = Except.error (400, "No preview ready for approval"))) :=
  ⟨by decide,
   C6_approve_idempotence (run [Ev.pipeStart, Ev.pipeManualOk "p"]) "final"
     (Except.ok "again") (by decide)⟩

/-! ## C7 — finalize/cleanup semantics -/

lemma preview_final_path_ne (id : String) (ts : Nat) :
    preview_storage_path id ≠ final_storage_path id ts := by
  intro h
  have h2 := congrArg String.data h
  simp only [preview_storage_path, final_storage_path, String.data_append] at h2
  simp only [List.cons_append] at h2
  injection h2 with h3 h4
  exact absurd h3 (by decide)

/-- Demonstration storage oracle: the preview download succeeds. -/
def demoDownload : String → Except String Nat := fun _ => Except.ok 0

/-- Demonstration storage oracle: the final upload answers status 200. -/
def demoUpload : String → Nat → Except String Nat := fun _ _ => Except.ok 200

/-- Demonstration storage oracle: the public-URL lookup. -/
def demoUrl : String → String := fun p => "https://cdn/" ++ p

/-- Demonstration storage oracle: the preview removal returns the error
status 500 without raising. -/
def demoRemoveCode : String → Except String Nat := fun _ => Except.ok 500

/-- Demonstration storage oracle: the preview removal raises. -/
def demoRemoveRaise : String → Except String Nat := fun _ => Except.error "remove failed"

/-- C7 counterexample: when the preview-deletion call raises, the
exception propagates out of `finalize_image`'s `try` block, so the
approval itself fails with HTTP 500 and the job stays `preview_ready`
instead of completing — the cleanup is not best-effort for a raising
deletion. -/
theorem C7_counterexample :
    finalize_image demoDownload demoUpload demoUrl demoRemoveRaise "job1" 7
      = Except.error "remove failed"
    ∧ approve_generation (Except.error "remove failed")
        (run [Ev.pipeStart, Ev.pipeManualOk "p"])
      = Except.error (500, "Failed to approve image: remove failed")
    ∧ step (run [Ev.pipeStart, Ev.pipeManualOk "p"]) (Ev.approve (Except.error "remove failed"))
      = run [Ev.pipeStart, Ev.pipeManualOk "p"]
    ∧ (run [Ev.pipeStart, Ev.pipeManualOk "p"]).status = Status.preview_ready :=
  ⟨rfl, rfl, rfl, by decide⟩

/-- C7 amended: the preview artifact (`previews/preview_{id}.png`) and
the final artifact (`covers/final_{id}_{ts}.png`) are always distinct
storage paths; approval promotes the preview to the final path and then
deletes the preview, and the deletion's *returned value* is ignored — a
deletion failure reported through the return value (any status code)
does not fail the approval — but a deletion that *raises* propagates:
`finalize_image` fails and the approval leaves the job record unchanged. -/
theorem C7_amended :
    (∀ id ts, preview_storage_path id ≠ final_storage_path id ts)
    ∧ (∀ (B : Type) (d : String → Except String B) (up : String → B → Except String Nat)
        (purl : String → String) (rm : String → Except String Nat)
        (id : String) (ts : Nat) (data : B) (c : Nat),
        d (preview_storage_path id) = Except.ok data →
        up (final_storage_path id ts) data = Except.ok 200 →
        rm (preview_storage_path id) = Except.ok c →
        finalize_image d up purl rm id ts = Except.ok (purl (final_storage_path id ts)))
    ∧ (∀ (B : Type) (d : String → Except String B) (up : String → B → Except String Nat)
        (purl : String → String) (rm : String → Except String Nat)
        (id : String) (ts : Nat) (data : B) (e : String),
        d (preview_storage_path id) = Except.ok data →
        up (final_storage_path id ts) data = Except.ok 200 →
        rm (preview_storage_path id) = Except.error e →
        finalize_image d up purl rm id ts = Except.error e
        ∧ ∀ j : Job, step j (Ev.approve (Except.error e)) = j) := by
  refine ⟨preview_final_path_ne, ?_, ?_⟩
  · intro B d up purl rm id ts data c hd hup hrm
    simp [finalize_image, hd, hup, hrm]
  · intro B d up purl rm id ts data e hd hup hrm
    constructor
    · simp [finalize_image, hd, hup, hrm]
    · intro j
      rw [step]
      by_cases hs : j.status = Status.preview_ready
      · have : approve_generation (Except.error e) j
            = Except.error (500, "Failed to approve image: " ++ e) := by
          unfold approve_generation
          rw [if_neg (by rw [hs]; simp)]
        rw [this]
      · have : approve_generation (Except.error e) j
            = Except.error (400, "No preview ready for approval") := by
          unfold approve_generation
          rw [if_pos hs]
        rw [this]

/-- C7 witness: `C7_amended` applied to concrete storage oracles — one
whose removal returns the error code 500 (ignored; the finalize still
succeeds) and one whose removal raises. -/
theorem C7_witness :
    preview_storage_path "job1" ≠ final_storage_path "job1" 7
    ∧ (demoDownload (preview_storage_path "job1") = Except.ok 0
      ∧ demoUpload (final_storage_path "job1" 7) 0 = Except.ok 200
      ∧ demoRemoveCode (preview_storage_path "job1") = Except.ok 500
      ∧ finalize_image demoDownload demoUpload demoUrl demoRemoveCode "job1" 7
        = Except.ok (demoUrl (final_storage_path "job1" 7)))
    ∧ (demoRemoveRaise (preview_storage_path "job1") = Except.error "remove failed"
      ∧ finalize_image demoDownload demoUpload demoUrl demoRemoveRaise "job1" 7
        = Except.error "remove failed"
      ∧ ∀ j : Job, step j (Ev.approve (Except.error "remove failed")) = j) :=
  ⟨C7_amended.1 "job1" 7,
   ⟨rfl, rfl, rfl,
    C7_amended.2.1 Nat demoDownload demoUpload demoUrl demoRemoveCode "job1" 7 0 500
      rfl rfl rfl⟩,
   ⟨rfl,
    (C7_amended.2.2 Nat demoDownload demoUpload demoUrl demoRemoveRaise "job1" 7 0
      "remove failed" rfl rfl rfl).1,
    (C7_amended.2.2 Nat demoDownload demoUpload demoUrl demoRemoveRaise "job1" 7 0
      "remove failed" rfl rfl rfl).2⟩⟩

/-! ## C5 — stage failure aborts and records -/

/-- The record a background task leaves behind when a stage raises `e`
on a freshly submitted job: the `except` block applied to the record
after the initial `status = "processing"` write. -/
def failedRecord (e : String) : Job :=
  failUpdate { initJob with status := Status.processing } e

/-- C5: whichever stage of either background task raises, the remaining
stages never run (the result is the same for every choice of later-stage
oracle), the job ends `failed`, the failure reason is recorded as the
non-empty message `"Generation failed: " ++ e`, and the record exposes
no result reference (`image_url` and `preview_url` both unset). -/
theorem C5_stage_failure (Img : Type) :
    (∀ (e : String) (ov : Img → Except String Img) (up : Img → Except String String),
      process_cover_generation (Except.error e) ov up initJob = failedRecord e)
    ∧ (∀ (e : String) (bg : Img) (ov : Img → Except String Img),
        ov bg = Except.error e →
        ∀ up : Img → Except String String,
        process_cover_generation (Except.ok bg) ov up initJob = failedRecord e)
    ∧ (∀ (e : String) (bg fi : Img) (ov : Img → Except String Img),
        ov bg = Except.ok fi →
        ∀ up : Img → Except String String, up fi = Except.error e →
        process_cover_generation (Except.ok bg) ov up initJob = failedRecord e)
    ∧ (∀ (e : String) (ov : Img → Except String Img)
        (wmo : Option (Img → Except String Img)) (sp : Img → Except String String),
        process_manual_generation (Except.error e) ov wmo sp initJob = failedRecord e)
    ∧ (∀ (e : String) (bg : Img) (ov : Img → Except String Img),
        ov bg = Except.error e →
        ∀ (wmo : Option (Img → Except String Img)) (sp : Img → Except String String),
        process_manual_generation (Except.ok bg) ov wmo sp initJob = failedRecord e)
    ∧ (∀ (e : String) (bg it : Img) (ov : Img → Except String Img),
        ov bg = Except.ok it →
        ∀ wm : Img → Except String Img, wm it = Except.error e →
        ∀ sp : Img → Except String String,
        process_manual_generation (Except.ok bg) ov (some wm) sp initJob = failedRecord e)
    ∧ (∀ (e : String) (bg it fi : Img) (ov : Img → Except String Img),
        ov bg = Except.ok it →
        ∀ wm : Img → Except String Img, wm it = Except.ok fi →
        ∀ sp : Img → Except String String, sp fi = Except.error e →
        process_manual_generation (Except.ok bg) ov (some wm) sp initJob = failedRecord e)
    ∧ (∀ (e : String) (bg it : Img) (ov : Img → Except String Img),
        ov bg = Except.ok it →
        ∀ sp : Img → Except String String, sp it = Except.error e →
        process_manual_generation (Except.ok bg) ov none sp initJob = failedRecord e)
    ∧ (∀ e : String,
        (failedRecord e).status = Status.failed
        ∧ (failedRecord e).message = some (failMsg e)
        ∧ failMsg e ≠ ""
        ∧ (failedRecord e).image_url = none
        ∧ (failedRecord e).preview_url = none) := by
  refine ⟨?_, ?_, ?_, ?_, ?_, ?_, ?_, ?_, ?_⟩
  · intro e ov up
    rfl
  · intro e bg ov hov up
    simp [process_cover_generation, hov, failedRecord]
  · intro e bg fi ov hov up hup
    simp [process_cover_generation, hov, hup, failedRecord]
  · intro e ov wmo sp
    rfl
  · intro e bg ov hov wmo sp
    simp [process_manual_generation, hov, failedRecord]
  · intro e bg it ov hov wm hwm sp
    simp [process_manual_generation, hov, hwm, failedRecord]
  · intro e bg it fi ov hov wm hwm sp hsp
    simp [process_manual_generation, hov, hwm, hsp, failedRecord]
  · intro e bg it ov hov sp hsp
    simp [process_manual_generation, hov, hsp, failedRecord]
  · intro e
    exact ⟨rfl, rfl, failMsg_ne_empty e, rfl, rfl⟩

/-- C5 witness: `C5_stage_failure` at `Img := Nat` with concrete
failing oracles for every stage of both pipelines. -/
theorem C5_witness :
    process_cover_generation (Except.error "model down" : Except String Nat)
        (fun i => Except.ok i) (fun _ => Except.ok "u") initJob = failedRecord "model down"
    ∧ ((fun _ => Except.error "overlay down" : Nat → Except String Nat) 1
          = Except.error "overlay down"
      ∧ process_cover_generation (Except.ok 1) (fun _ => Except.error "overlay down")
          (fun _ => Except.ok "u") initJob = failedRecord "overlay down")
    ∧ ((fun i => Except.ok i : Nat → Except String Nat) 1 = Except.ok 1
      ∧ (fun _ => Except.error "upload down" : Nat → Except String String) 1
          = Except.error "upload down"
      ∧ process_cover_generation (Except.ok 1) (fun i => Except.ok i)
          (fun _ => Except.error "upload down") initJob = failedRecord "upload down")
    ∧ process_manual_generation (Except.error "model down" : Except String Nat)
        (fun i => Except.ok i) none (fun _ => Except.ok "p") initJob
        = failedRecord "model down"
    ∧ process_manual_generation (Except.ok 1) (fun _ => Except.error "overlay down")
        none (fun _ => Except.ok "p") initJob = failedRecord "overlay down"
    ∧ process_manual_generation (Except.ok 1) (fun i => Except.ok i)
        (some fun _ => Except.error "watermark down") (fun _ => Except.ok "p") initJob
        = failedRecord "watermark down"
    ∧ process_manual_generation (Except.ok 1) (fun i => Except.ok i)
        (some fun i => Except.ok i) (fun _ => Except.error "save down") initJob
        = failedRecord "save down"
    ∧ process_manual_generation (Except.ok 1) (fun i => Except.ok i)
        none (fun _ => Except.error "save down") initJob = failedRecord "save down"
    ∧ ((failedRecord "x").status = Status.failed
      ∧ (failedRecord "x").message = some (failMsg "x")
      ∧ failMsg "x" ≠ ""
      ∧ (failedRecord "x").image_url = none
      ∧ (failedRecord "x").preview_url = none) :=
  ⟨(C5_stage_failure Nat).1 "model down" (fun i => Except.ok i) (fun _ => Except.ok "u"),
   ⟨rfl, (C5_stage_failure Nat).2.1 "overlay down" 1 (fun _ => Except.error "overlay down")
      rfl (fun _ => Except.ok "u")⟩,
   ⟨rfl, rfl, (C5_stage_failure Nat).2.2.1 "upload down" 1 1 (fun i => Except.ok i) rfl
      (fun _ => Except.error "upload down") rfl⟩,
   (C5_stage_failure Nat).2.2.2.1 "model down" (fun i => Except.ok i) none (fun _ => Except.ok "p"),
   (C5_stage_failure Nat).2.2.2.2.1 "overlay down" 1 (fun _ => Except.error "overlay down")
      rfl none (fun _ => Except.ok "p"),
   (C5_stage_failure Nat).2.2.2.2.2.1 "watermark down" 1 1 (fun i => Except.ok i) rfl
      (fun _ => Except.error "watermark down") rfl (fun _ => Except.ok "p"),
   (C5_stage_failure Nat).2.2.2.2.2.2.1 "save down" 1 1 1 (fun i => Except.ok i) rfl
      (fun i => Except.ok i) rfl (fun _ => Except.error "save down") rfl,
   (C5_stage_failure Nat).2.2.2.2.2.2.2.1 "save down" 1 1 (fun i => Except.ok i) rfl
      (fun _ => Except.error "save down") rfl,
   (C5_stage_failure Nat).2.2.2.2.2.2.2.2 "x"⟩


/-! ## C4 — result/error field invariant -/

/-- The field-consistency invariant of one job record, as it actually
holds of the code: the failure reason (a message of the shape
`"Generation failed: " ++ e`) is recorded exactly on `failed` records,
and `completed`/`preview_ready` records carry a result reference.  (The
converse of the result clause is false — see the C4 counterexample.) -/
def JobInv (j : Job) : Prop :=
  (j.status = Status.failed ↔ ∃ e, j.message = some (failMsg e))
  ∧ (j.status = Status.completed → j.image_url ≠ none)
  ∧ (j.status = Status.preview_ready → j.preview_url ≠ none)

/-- Induction invariant: the record invariant, strengthened with what
records are possible before the background task has started. -/
def StInv (s : PState) (j : Job) : Prop :=
  JobInv j ∧ (s = PState.notStarted → j.status = Status.queued ∨ j.status = Status.cancelled)

lemma step_preserves_inv (s : PState) (e : Ev) (j : Job)
    (hok : evOK s e = true) (h : StInv s j) : StInv (evNext s e) (step j e) := by
  obtain ⟨⟨hiff, hci, hpi⟩, hns⟩ := h
  cases e with
  | pipeStart =>
      have hs : s = PState.notStarted := by simpa [evOK] using hok
      have hnf : j.status ≠ Status.failed := by
        rcases hns hs with hq | hq <;> rw [hq] <;> decide
      refine ⟨⟨?_, ?_, ?_⟩, ?_⟩
      · show Status.processing = Status.failed ↔ ∃ e, j.message = some (failMsg e)
        constructor
        · intro hx; exact Status.noConfusion hx
        · intro hex; exact absurd (hiff.mpr hex) hnf
      · intro hx; exact Status.noConfusion hx
      · intro hx; exact Status.noConfusion hx
      · intro hx; exact PState.noConfusion hx
  | pipeAutoOk url =>
      refine ⟨⟨?_, ?_, ?_⟩, ?_⟩
      · show Status.completed = Status.failed
          ↔ ∃ e, some "Cover generated successfully" = some (failMsg e)
        constructor
        · intro hx; exact Status.noConfusion hx
        · rintro ⟨e', he'⟩
          exact absurd (Option.some.inj he') (not_failMsg _ (by decide) e')
      · intro _
        exact Option.some_ne_none url
      · intro hx; exact Status.noConfusion hx
      · intro hx; exact PState.noConfusion hx
  | pipeManualOk url =>
      refine ⟨⟨?_, ?_, ?_⟩, ?_⟩
      · show Status.preview_ready = Status.failed
          ↔ ∃ e, some "Preview ready for approval" = some (failMsg e)
        constructor
        · intro hx; exact Status.noConfusion hx
        · rintro ⟨e', he'⟩
          exact absurd (Option.some.inj he') (not_failMsg _ (by decide) e')
      · intro hx; exact Status.noConfusion hx
      · intro _
        exact Option.some_ne_none url
      · intro hx; exact PState.noConfusion hx
  | pipeFail e =>
      refine ⟨⟨?_, ?_, ?_⟩, ?_⟩
      · show Status.failed = Status.failed ↔ ∃ e', some (failMsg e) = some (failMsg e')
        exact ⟨fun _ => ⟨e, rfl⟩, fun _ => rfl⟩
      · intro hx; exact Status.noConfusion hx
      · intro hx; exact Status.noConfusion hx
      · intro hx; exact PState.noConfusion hx
  | cancel =>
      by_cases hc : j.status = Status.completed ∨ j.status = Status.failed
      · have hstep : step j Ev.cancel = j := by
          rw [step, cancel_job, if_pos hc]
        rw [hstep]
        exact ⟨⟨hiff, hci, hpi⟩, hns⟩
      · have hstep : step j Ev.cancel = { j with status := Status.cancelled } := by
          rw [step, cancel_job, if_neg hc]
        rw [hstep]
        have hnf : j.status ≠ Status.failed := fun hx => hc (Or.inr hx)
        refine ⟨⟨?_, ?_, ?_⟩, ?_⟩
        · show Status.cancelled = Status.failed ↔ ∃ e, j.message = some (failMsg e)
          constructor
          · intro hx; exact Status.noConfusion hx
          · intro hex; exact absurd (hiff.mpr hex) hnf
        · intro hx; exact Status.noConfusion hx
        · intro hx; exact Status.noConfusion hx
        · intro _; exact Or.inr rfl
  | approve f =>
      by_cases hs : j.status = Status.preview_ready
      · cases f with
        | error e =>
            have hstep : step j (Ev.approve (Except.error e)) = j := by
              have ha : approve_generation (Except.error e) j
                  = Except.error (500, "Failed to approve image: " ++ e) := by
                unfold approve_generation
                rw [if_neg (by rw [hs]; simp)]
              rw [step, ha]
            rw [hstep]
            exact ⟨⟨hiff, hci, hpi⟩, hns⟩
        | ok u =>
            have hstep : step j (Ev.approve (Except.ok u)) = approvedUpdate j u := by
              have ha : approve_generation (Except.ok u) j = Except.ok (approvedUpdate j u, u) := by
                unfold approve_generation approvedUpdate
                rw [if_neg (by rw [hs]; simp)]
              rw [step, ha]
            rw [hstep]
            refine ⟨⟨?_, ?_, ?_⟩, ?_⟩
            · show Status.completed = Status.failed
                ↔ ∃ e, some "Image approved and saved" = some (failMsg e)
              constructor
              · intro hx; exact Status.noConfusion hx
              · rintro ⟨e', he'⟩
                exact absurd (Option.some.inj he') (not_failMsg _ (by decide) e')
            · intro _
              exact Option.some_ne_none u
            · intro hx; exact Status.noConfusion hx
            · intro hsn
              rcases hns hsn with hq | hq <;> rw [hs] at hq <;> exact absurd hq (by decide)
      · have hstep : step j (Ev.approve f) = j := by
          have ha : approve_generation f j = Except.error (400, "No preview ready for approval") := by
            unfold approve_generation
            rw [if_pos hs]
          rw [step, ha]
        rw [hstep]
        exact ⟨⟨hiff, hci, hpi⟩, hns⟩

lemma adm_inv (t : List Ev) : ∀ (s : PState) (j : Job),
    admFrom s t = true → StInv s j → JobInv (runFrom j t) := by
  induction t with
  | nil =>
      intro s j _ h
      exact h.1
  | cons e t ih =>
      intro s j hadm h
      rw [admFrom, Bool.and_eq_true] at hadm
      obtain ⟨h1, h2⟩ := hadm
      rw [runFrom_cons]
      exact ih (evNext s e) (step j e) h2 (step_preserves_inv s e j h1 h)

/-- C4 amended: along every admissible history of a job, the failure
reason is recorded if and only if the status is `failed`, a `completed`
record has its `image_url` set and a `preview_ready` record has its
`preview_url` set; but the converse of the result clause fails —
cancelling a job that already holds a result keeps the result reference
(see the counterexample), so "result set iff status ∈ {preview_ready,
completed}" does not hold. -/
theorem C4_amended (t : List Ev) (h : admissible t) :
    ((run t).status = Status.failed ↔ ∃ e, (run t).message = some (failMsg e))
    ∧ ((run t).status = Status.completed → (run t).image_url ≠ none)
    ∧ ((run t).status = Status.preview_ready → (run t).preview_url ≠ none) := by
  refine adm_inv t PState.notStarted initJob h ⟨⟨?_, ?_, ?_⟩, ?_⟩
  · constructor
    · intro hx; exact Status.noConfusion hx
    · rintro ⟨e, he⟩; exact Option.noConfusion he
  · intro hx; exact Status.noConfusion hx
  · intro hx; exact Status.noConfusion hx
  · intro _; exact Or.inl rfl

/-- C4 counterexample: a manual job whose pipeline has parked it in
`preview_ready` with a preview URL can then be cancelled (the handler
accepts `preview_ready`); the cancelled record keeps
`preview_url = some "u"` while its status is neither `preview_ready`
nor `completed`, refuting the claimed "result set only if status ∈
{preview_ready, completed}" direction. -/
theorem C4_counterexample :
    admissible [Ev.pipeStart, Ev.pipeManualOk "u", Ev.cancel]
    ∧ (run [Ev.pipeStart, Ev.pipeManualOk "u", Ev.cancel]).status = Status.cancelled
    ∧ (run [Ev.pipeStart, Ev.pipeManualOk "u", Ev.cancel]).preview_url = some "u"
    ∧ (run [Ev.pipeStart, Ev.pipeManualOk "u", Ev.cancel]).status ≠ Status.preview_ready
    ∧ (run [Ev.pipeStart, Ev.pipeManualOk "u", Ev.cancel]).status ≠ Status.completed := by
  refine ⟨?_, ?_, ?_, ?_, ?_⟩
  · unfold admissible
    decide
  all_goals decide

/-- C4 witness: `C4_amended` applied to the history in which the
pipeline starts and then fails. -/
theorem C4_witness :
    admissible [Ev.pipeStart, Ev.pipeFail "model error"]
    ∧ (((run [Ev.pipeStart, Ev.pipeFail "model error"]).status = Status.failed
        ↔ ∃ e, (run [Ev.pipeStart, Ev.pipeFail "model error"]).message = some (failMsg e))
      ∧ ((run [Ev.pipeStart, Ev.pipeFail "model error"]).status = Status.completed
        → (run [Ev.pipeStart, Ev.pipeFail "model error"]).image_url ≠ none)
      ∧ ((run [Ev.pipeStart, Ev.pipeFail "model error"]).status = Status.preview_ready
        → (run [Ev.pipeStart, Ev.pipeFail "model error"]).preview_url ≠ none)) :=
  ⟨by unfold admissible; decide, C4_amended _ (by unfold admissible; decide)⟩


/-! ## C9 — line-breaking rule -/

lemma slb_fold_mem (w : String → Int) (words : List String) :
    ∀ (l : List Nat) (acc : (Int × Int) × Option Nat) (i : Nat),
      ((l.foldl (slbStep w words) acc).2 = some i) → acc.2 = some i ∨ i ∈ l := by
  intro l
  induction l with
  | nil =>
      intro acc i h
      exact Or.inl h
  | cons x l ih =>
      intro acc i h
      rw [List.foldl_cons] at h
      rcases ih (slbStep w words acc x) i h with h1 | h1
      · unfold slbStep at h1
        dsimp only at h1
        split_ifs at h1 with h2 h3
        · have h4 : x = i := Option.some.inj h1
          exact Or.inr (by rw [← h4]; exact List.mem_cons_self x l)
        · exact Or.inl h1
        · exact Or.inl h1
      · exact Or.inr (List.mem_cons_of_mem x h1)

lemma slbBestSplit_bound (w : String → Int) (words : List String)
    (h3 : 3 ≤ words.length) :
    1 ≤ slbBestSplit w words ∧ slbBestSplit w words < words.length := by
  unfold slbBestSplit
  rcases hcase : (((List.range' 1 (words.length - 1)).foldl (slbStep w words) ((0, 1), none)).2)
    with _ | i
  · simp only [Option.getD]
    omega
  · rcases slb_fold_mem w words _ _ i hcase with h1 | h1
    · exact absurd h1 (by simp)
    · rw [List.mem_range'_1] at h1
      simp only [Option.getD]
      omega

/-- Demonstration width oracle: one pixel per character. -/
def demoWidth : String → Int := fun s => s.data.length

/-- C9 counterexample: a title that is one single unbreakable token is
returned by `smart_line_breaking` as a single unchanged line — the
`len(words) <= 2` early return — not as the naive midpoint character
split the claim describes; `wrap_text` likewise emits an overlong
single token whole on its own line. -/
theorem C9_counterexample :
    smart_line_breaking demoWidth "Unstoppable" = ["Unstoppable"]
    ∧ spec_midpoint_char_split "Unstoppable" = ["Unsto", "ppable"]
    ∧ smart_line_breaking demoWidth "Unstoppable" ≠ spec_midpoint_char_split "Unstoppable"
    ∧ wrap_text demoWidth 5 "Unstoppable" = ["Unstoppable"] := by
  refine ⟨?_, ?_, ?_, ?_⟩ <;> decide

/-- C9 amended: the line-breaking functions are deterministic (equal
width oracles give equal output), but never character-split: a title of
at most two words — in particular a single unbreakable token — is
returned as one unchanged line; a title of three or more words is split
into exactly two lines at a word boundary `k` with `1 ≤ k < len(words)`
(the boundary with the best first/second width ratio of at least 1.2,
else the biased midpoint word boundary); and `wrap_text` returns a
single-token text unchanged whatever the zone width. -/
theorem C9_amended :
    (∀ (w : String → Int) (t : String),
      (pySplit t).length ≤ 2 → smart_line_breaking w t = [t])
    ∧ (∀ (w : String → Int) (t : String), 3 ≤ (pySplit t).length →
        ∃ k, 1 ≤ k ∧ k < (pySplit t).length
          ∧ smart_line_breaking w t
            = [joinWords ((pySplit t).take k), joinWords ((pySplit t).drop k)])
    ∧ (∀ (w w' : String → Int) (t : String), (∀ x, w x = w' x) →
        smart_line_breaking w t = smart_line_breaking w' t)
    ∧ (∀ (w : String → Int) (mw : Int) (t : String), pySplit t = [t] →
        wrap_text w mw t = [t]) := by
  refine ⟨?_, ?_, ?_, ?_⟩
  · intro w t h
    unfold smart_line_breaking smart_line_breaking_words
    rw [if_pos h]
  · intro w t h3
    obtain ⟨hk1, hk2⟩ := slbBestSplit_bound w (pySplit t) h3
    refine ⟨slbBestSplit w (pySplit t), hk1, hk2, ?_⟩
    unfold smart_line_breaking smart_line_breaking_words
    rw [if_neg (by omega)]
  · intro w w' t h
    have hww : w = w' := funext h
    rw [hww]
  · intro w mw t hsplit
    unfold wrap_text
    rw [hsplit]
    simp only [List.foldl_cons, List.foldl_nil]
    unfold wrapStep
    dsimp only
    by_cases h1 : w (joinWords ([] ++ [t])) ≤ mw
    · rw [if_pos h1]
      dsimp only
      rw [if_pos (by simp)]
      simp [joinWords_singleton]
    · rw [if_neg h1, if_neg (by simp)]
      rw [if_neg (by simp)]
      simp

/-- C9 witness: `C9_amended` applied to concrete titles under the
character-count width oracle. -/
theorem C9_witness :
    ((pySplit "Bitcoin Soars").length ≤ 2
      ∧ smart_line_breaking demoWidth "Bitcoin Soars" = ["Bitcoin Soars"])
    ∧ (3 ≤ (pySplit "Solana hits new record high").length
      ∧ ∃ k, 1 ≤ k ∧ k < (pySplit "Solana hits new record high").length
          ∧ smart_line_breaking demoWidth "Solana hits new record high"
            = [joinWords ((pySplit "Solana hits new record high").take k),
               joinWords ((pySplit "Solana hits new record high").drop k)])
    ∧ smart_line_breaking demoWidth "Bitcoin hits record"
        = smart_line_breaking demoWidth "Bitcoin hits record"
    ∧ (pySplit "Unstoppable" = ["Unstoppable"]
      ∧ wrap_text demoWidth 99 "Unstoppable" = ["Unstoppable"]) :=
  ⟨⟨by decide, C9_amended.1 demoWidth "Bitcoin Soars" (by decide)⟩,
   ⟨by decide, C9_amended.2.1 demoWidth "Solana hits new record high" (by decide)⟩,
   C9_amended.2.2.1 demoWidth demoWidth "Bitcoin hits record" (fun x => rfl),
   ⟨by decide, C9_amended.2.2.2 demoWidth 99 "Unstoppable" (by decide)⟩⟩
